import Mathlib

/-!
Verification of the ByteBuilder build-aggregation and compatibility engine.

The development shallowly embeds the JavaScript sources:
* `src/builder.js` / `src/app.js` — catalog-based builder page
  (`updateSummary`, `exportBuild`, the 8-category `ORDER`);
* `src/Frontend/src/builder.js` / `src/Frontend/src/main.js` — web-search
  builder (`calculateTotalPrice`, `calculateTotalWatts`, `selectComponent`,
  `removeComponent`, `extractNumericPrice`, `selectWebComponent`,
  `checkBuildCompatibility`, the 9-category `ORDER` with "Accessories").

Modelling choices:
* The build state (a JS object keyed by category strings) is an association
  list `List (String × Component)`; JS objects have unique keys, which shows
  up as `NodupKeys` hypotheses.
* JS numbers are exact rationals; watt and score values are naturals
  (catalog values and the random watt estimate are non-negative integers).
  A missing (`undefined`) `watts`/`score` field is `Option.none`; the JS
  `item.watts || 0` idiom becomes `Option.getD 0`.
* `parseFloat` returning `NaN` is modelled as `Option.none`.
* `Number.prototype.toFixed(0)` rounds to the nearest integer with ties
  toward positive infinity ("pick the larger n" in the ECMAScript spec),
  which is exactly Mathlib's `round` on `ℚ`.  The non-finite float results
  (`NaN` / `-Infinity` in the headroom display) are a dedicated
  `HeadroomDisplay.nonFinite` constructor.
-/

namespace ByteBuilder

/-- A purchasable part; mirrors the component records of the JS sources
(`id`, `name`, `price`, `watts`, `score`).  Provenance fields (image, url,
rating, snippet, specs) are never read by the engine and are omitted.
A missing `watts`/`score` field (possible for web-sourced components) is
`none`. -/
structure Component where
  id : String
  name : String
  price : ℚ
  watts : Option ℕ
  score : Option ℕ
  deriving DecidableEq

/-- Build state: JS object mapping a category name to the selected
component, embedded as an insertion-ordered association list. -/
abbrev BState := List (String × Component)

/-- Keys of the build state (`Object.keys(state)`). -/
abbrev keys (s : BState) : List String := s.map Prod.fst

/-- JS objects cannot hold the same key twice. -/
abbrev NodupKeys (s : BState) : Prop := (keys s).Nodup

/-- Property access `state[category]`: first (and, under `NodupKeys`, only)
entry with the given key. -/
def findComp (c : String) : BState → Option Component
  | [] => none
  | e :: rest => if e.1 = c then some e.2 else findComp c rest

/-- Category list `ORDER` of `src/builder.js` (also the first copy in
`src/app.js`): eight categories, no "Accessories". -/
def ORDER : List String :=
  ["CPU", "GPU", "RAM", "Storage", "Motherboard", "Case", "Power Supply",
   "Cooling System"]

/-- Category list `ORDER` of `src/Frontend/src/main.js` and
`src/Frontend/src/builder.js` (also the second copy in `src/app.js`):
nine categories including "Accessories". -/
def ORDER_WEB : List String :=
  ["CPU", "GPU", "RAM", "Storage", "Motherboard", "Case", "Power Supply",
   "Cooling System", "Accessories"]

/-- Contribution of a lookup result to the price total (`item.price`,
unselected categories contribute 0). -/
def priceOr0 : Option Component → ℚ
  | some i => i.price
  | none => 0

/-- Contribution of a lookup result to the watt total
(`item.watts || 0`). -/
def wattsOr0 : Option Component → ℕ
  | some i => i.watts.getD 0
  | none => 0

/-- Contribution of a lookup result to the CPU+GPU score
(`item.score || 0`). -/
def scoreOr0 : Option Component → ℕ
  | some i => i.score.getD 0
  | none => 0

/-- The `total` accumulator of `updateSummary` in `src/builder.js`:
`ORDER.forEach`, `if (state[category]) total += item.price`. -/
def total (s : BState) : ℚ :=
  (ORDER.map (fun c => priceOr0 (findComp c s))).sum

/-- The `totalWatts` accumulator of `updateSummary` in `src/builder.js`:
`totalWatts += item.watts || 0` over every selected category in `ORDER`
(the Power Supply included). -/
def totalWatts (s : BState) : ℕ :=
  (ORDER.map (fun c => wattsOr0 (findComp c s))).sum

/-- The `cpuGpuScore` accumulator of `updateSummary`:
`if (category === "CPU" || category === "GPU") cpuGpuScore += item.score || 0`. -/
def cpuGpuScore (s : BState) : ℕ :=
  (ORDER.map (fun c =>
    if c = "CPU" ∨ c = "GPU" then scoreOr0 (findComp c s) else 0)).sum

/-- Rendered performance metric: `cpuGpuScore > 0 ? `${cpuGpuScore}/200` : "—"`. -/
inductive PerfDisplay where
  | dash : PerfDisplay
  | outOf200 : ℕ → PerfDisplay
  deriving DecidableEq

/-- The `#perfScore` text set by `updateSummary`. -/
def perfDisplay (s : BState) : PerfDisplay :=
  if 0 < cpuGpuScore s then .outOf200 (cpuGpuScore s) else .dash

/-- Rendered PSU-headroom metric.  `dash` is the "—" branch; `nonFinite`
covers the float results that are not finite numbers ("NaN%" when the PSU
record has no `watts` field, "-Infinity%" when its rated wattage is 0);
`percent z` is `` `${headroom}%` `` with `headroom = (...).toFixed(0)`. -/
inductive HeadroomDisplay where
  | dash : HeadroomDisplay
  | nonFinite : HeadroomDisplay
  | percent : ℤ → HeadroomDisplay
  deriving DecidableEq

/-- The `#psuHeadroom` text set by `updateSummary`:
`psu && totalWatts > 0 ? (((psu.watts - totalWatts) / psu.watts) * 100).toFixed(0) : "—"`. -/
def psuHeadroom (s : BState) : HeadroomDisplay :=
  match findComp "Power Supply" s with
  | none => .dash
  | some psu =>
    if 0 < totalWatts s then
      match psu.watts with
      | none => .nonFinite
      | some w =>
        if w = 0 then .nonFinite
        else .percent (round ((((w : ℚ) - (totalWatts s : ℚ)) / (w : ℚ)) * 100))
    else .dash

/-- All four derived metrics written by `updateSummary` of `src/builder.js`
(the `src/app.js` copy computes the same values, guarding only for missing
DOM elements). -/
structure Summary where
  totalPrice : ℚ
  totalWattsOut : ℕ
  perf : PerfDisplay
  headroom : HeadroomDisplay
  deriving DecidableEq

/-- One pass of `updateSummary` (`src/builder.js`, lines 550–585). -/
def updateSummary (s : BState) : Summary :=
  { totalPrice := total s
    totalWattsOut := totalWatts s
    perf := perfDisplay s
    headroom := psuHeadroom s }

/-- `calculateTotalPrice` of `src/Frontend/src/builder.js` /
`src/Frontend/src/main.js`: sum of `state[category].price` over
`ORDER` (the nine-category list). -/
def calculateTotalPrice (s : BState) : ℚ :=
  (ORDER_WEB.map (fun c => priceOr0 (findComp c s))).sum

/-- `calculateTotalWatts` of `src/Frontend/src/builder.js`: sum of
`state[category].watts || 0` over the nine-category `ORDER`. -/
def calculateTotalWatts (s : BState) : ℕ :=
  (ORDER_WEB.map (fun c => wattsOr0 (findComp c s))).sum

/-- The grand total written by `exportBuild`
(`Object.values(state).reduce((sum, item) => sum + item.price, 0)`):
a sum over every stored entry, whatever its key. -/
def exportBuildTotal (s : BState) : ℚ :=
  (s.map (fun e => e.2.price)).sum

/-- `state[category] = item` (`selectComponent` of
`src/Frontend/src/main.js`): replaces the value if the key is present,
appends otherwise. -/
def selectComponent (c : String) (comp : Component) : BState → BState
  | [] => [(c, comp)]
  | e :: rest => if e.1 = c then (c, comp) :: rest else e :: selectComponent c comp rest

/-- `delete state[category]` (`removeComponent` of
`src/Frontend/src/main.js`). -/
def removeComponent (c : String) (s : BState) : BState :=
  s.filter (fun e => decide (e.1 ≠ c))

/-- A sequence of `selectComponent` calls applied in order. -/
def applySelects (s : BState) (ops : List (String × Component)) : BState :=
  ops.foldl (fun st op => selectComponent op.1 op.2 st) s

/-- The watt estimate of `selectWebComponent`
(`Math.floor(Math.random() * 200) + 50`), as a function of the
`Math.random()` draw `r ∈ [0, 1)`. -/
def estimatedWatts (r : ℚ) : ℤ :=
  ⌊r * 200⌋ + 50

section PriceParsing

/-- Character class `[\d,]` of the `extractNumericPrice` regex. -/
def isDigitOrComma (c : Char) : Bool :=
  c.isDigit || c == ','

/-- Numeric value of a digit string (most significant first). -/
def digitsToNat (l : List Char) : ℕ :=
  l.foldl (fun acc c => 10 * acc + (c.toNat - '0'.toNat)) 0

/-- Model of JS `parseFloat` on the comma-stripped regex match: such
strings consist of digits with at most one dot, with the dot never first
unless the digits-and-commas run was all commas.  `none` is `NaN`
(produced for the empty string and for a bare "."). -/
def parseFloatQ (l : List Char) : Option ℚ :=
  let ip := l.takeWhile Char.isDigit
  match l.dropWhile Char.isDigit with
  | [] => if ip.isEmpty then none else some (digitsToNat ip)
  | c :: rest2 =>
    if c = '.' then
      let fd := rest2.takeWhile Char.isDigit
      if ip.isEmpty && fd.isEmpty then none
      else some ((digitsToNat ip : ℚ) + (digitsToNat fd : ℚ) / ((10 : ℚ) ^ fd.length))
    else if ip.isEmpty then none else some (digitsToNat ip)

/-- First match of the regex `/[\d,]+\.?\d*/` in a character list: the
match starts at the first digit-or-comma character, takes the maximal
digit-or-comma run, then greedily an optional dot and a digit run. -/
def regexMatch : List Char → Option (List Char)
  | [] => none
  | c :: rest =>
    if isDigitOrComma c then
      some
        (match (c :: rest).dropWhile isDigitOrComma with
         | '.' :: rest2 =>
           (c :: rest).takeWhile isDigitOrComma ++ '.' :: rest2.takeWhile Char.isDigit
         | _ => (c :: rest).takeWhile isDigitOrComma)
    else regexMatch rest

/-- `extractNumericPrice` of `src/Frontend/src/main.js` (and the identical
copy in `src/Frontend/src/builder.js`): empty/absent input yields 0, no
regex match yields 0, otherwise the match is comma-stripped and handed to
`parseFloat`.  `none` is the `NaN` result. -/
def extractNumericPrice (s : String) : Option ℚ :=
  if s = "" then some 0
  else
    match regexMatch s.data with
    | none => some 0
    | some m => parseFloatQ (m.filter (fun c => c != ','))

end PriceParsing

section Compatibility

/-- One entry of `compatibility_issues` as rendered by
`showCompatibilityResults` (fields `issue`, `suggestion`, `severity`). -/
structure CompatIssue where
  issue : String
  suggestion : String
  severity : String
  deriving DecidableEq

/-- The `power_analysis` object rendered by `showCompatibilityResults`. -/
structure PowerAnalysis where
  recommended_psu_wattage : ℕ
  explanation : String
  deriving DecidableEq

/-- The compatibility report shape delivered to
`showCompatibilityResults`. -/
structure CompatReport where
  build_status : String
  summary : String
  compatibility_issues : List CompatIssue
  power_analysis : Option PowerAnalysis
  components_analyzed : ℕ
  deriving DecidableEq

/-- The literal report built by `checkBuildCompatibility` when no
component is selected. -/
def noComponentsReport : CompatReport :=
  { build_status := "no_components"
    summary := "❓ Please select some components first to check compatibility."
    compatibility_issues := []
    power_analysis := none
    components_analyzed := 0 }

/-- The literal report built by the `catch` branch of
`checkBuildCompatibility` (fetch threw, non-2xx status, or bad JSON). -/
def errorReport : CompatReport :=
  { build_status := "error"
    summary := "❌ Unable to check compatibility. Please try again later."
    compatibility_issues := []
    power_analysis := none
    components_analyzed := 0 }

/-- `checkBuildCompatibility` of `src/Frontend/src/main.js`, with the
outcome of the `/api/compatibility-check` call passed explicitly:
`Except.ok r` is a 2xx response whose body carries `compatibility_report
= r`, `Except.error` is a thrown transport error or a non-2xx status
(both reach the same `catch`).  With zero components selected the
function returns before any request is made. -/
def checkBuildCompatibility (s : BState) (svc : Except String CompatReport) : CompatReport :=
  if s = [] then noComponentsReport
  else
    match svc with
    | .ok r => r
    | .error _ => errorReport

/-- Modelled from the spec: the compatibility-analysis service behind
`POST /api/compatibility-check` is not part of the repository sources
(only its caller is), so its verdict is modelled from the spec's §4.4
decision table: zero components → `no_components`; PSU selected with
negative headroom → `incompatible`; PSU selected with headroom below a
safety margin → `warning`; otherwise `compatible`.  The margin is left
as a parameter ("some safety margin" in the spec); the table has no row
for builds without a computable headroom, which here fall to
`compatible`. -/
def specEvaluatorStatus (margin : ℤ) (s : BState) : String :=
  if s = [] then "no_components"
  else
    match psuHeadroom s with
    | .percent h =>
      if h < 0 then "incompatible"
      else if h < margin then "warning"
      else "compatible"
    | _ => "compatible"

end Compatibility

/-! ## Helper lemmas -/

theorem nodupKeys_cons {e : String × Component} {s : BState} :
    NodupKeys (e :: s) ↔ e.1 ∉ keys s ∧ NodupKeys s := by
  simp [NodupKeys, keys]

theorem mem_keys_cons {k : String} {e : String × Component} {s : BState} :
    k ∈ keys (e :: s) ↔ k = e.1 ∨ k ∈ keys s := by
  simp [keys]

theorem findComp_eq_none_iff {c : String} {s : BState} :
    findComp c s = none ↔ c ∉ keys s := by
  induction s with
  | nil => simp [findComp, keys]
  | cons e rest ih =>
    by_cases h : e.1 = c
    · simp [findComp, h, mem_keys_cons]
    · have h' : ¬ c = e.1 := fun hc => h hc.symm
      simp only [findComp, if_neg h, ih, mem_keys_cons]
      constructor
      · intro hr hc
        rcases hc with hc | hc
        · exact h' hc
        · exact hr hc
      · intro hr hc
        exact hr (Or.inr hc)

theorem findComp_eq_none {c : String} {s : BState} (h : c ∉ keys s) :
    findComp c s = none :=
  findComp_eq_none_iff.mpr h

theorem sum_map_if_eq {M : Type} [AddCommMonoid M] (k : String) (p : M)
    (g : String → M) (cats : List String) (hc : cats.Nodup) (hg : g k = 0) :
    (cats.map (fun c => if k = c then p else g c)).sum
      = (if k ∈ cats then p else 0) + (cats.map g).sum := by
  induction cats with
  | nil => simp
  | cons c cs ih =>
    rcases List.nodup_cons.mp hc with ⟨hcn, hcs⟩
    by_cases h : k = c
    · subst h
      have hcongr : ∀ c' ∈ cs, (if k = c' then p else g c') = g c' := by
        intro c' hc'
        have hne : ¬ k = c' := fun h' => hcn (h' ▸ hc')
        exact if_neg hne
      simp [List.map_congr_left hcongr, hg]
    · have hmem : (k ∈ c :: cs) = (k ∈ cs) := by
        simp [List.mem_cons, h]
      simp only [List.map_cons, List.sum_cons, if_neg h, ih hcs, hmem]
      abel

theorem sum_lookup_eq_filter {M : Type} [AddCommMonoid M]
    (g : Option Component → M) (hg : g none = 0) (cats : List String)
    (s : BState) (hc : cats.Nodup) (hs : NodupKeys s) :
    (cats.map (fun c => g (findComp c s))).sum
      = ((s.filter (fun e => decide (e.1 ∈ cats))).map (fun e => g (some e.2))).sum := by
  induction s with
  | nil => simp [findComp, hg]
  | cons e rest ih =>
    have hkey : e.1 ∉ keys rest := (nodupKeys_cons.mp hs).1
    have hrest : NodupKeys rest := (nodupKeys_cons.mp hs).2
    have hstep : (cats.map (fun c => g (findComp c (e :: rest)))).sum
        = (if e.1 ∈ cats then g (some e.2) else 0)
          + (cats.map (fun c => g (findComp c rest))).sum := by
      have hzero : g (findComp e.1 rest) = 0 := by
        rw [findComp_eq_none hkey, hg]
      calc (cats.map (fun c => g (findComp c (e :: rest)))).sum
          = (cats.map (fun c =>
              if e.1 = c then g (some e.2) else g (findComp c rest))).sum := by
            simp only [findComp, apply_ite g]
        _ = _ := sum_map_if_eq e.1 (g (some e.2)) _ cats hc hzero
    rw [hstep, ih hrest]
    by_cases he : e.1 ∈ cats <;> simp [List.filter_cons, he]

theorem findComp_perm {s s' : BState} (h : s.Perm s') (hn : NodupKeys s)
    (c : String) : findComp c s = findComp c s' := by
  induction h with
  | nil => rfl
  | cons x hp ih =>
    have htail := (nodupKeys_cons.mp hn).2
    simp only [findComp, ih htail]
  | swap x y l =>
    have hxy : y.1 ≠ x.1 := by
      have h1 := (nodupKeys_cons.mp hn).1
      intro he
      exact h1 (mem_keys_cons.mpr (Or.inl he))
    simp only [findComp]
    by_cases h1 : y.1 = c <;> by_cases h2 : x.1 = c
    · exact absurd (h1.trans h2.symm) hxy
    · simp [h1, h2]
    · simp [h1, h2]
    · simp [h1, h2]
  | trans h1 h2 ih1 ih2 =>
    have hmid : NodupKeys _ := ((h1.map Prod.fst).nodup_iff).mp hn
    exact (ih1 hn).trans (ih2 hmid)

theorem select_of_not_mem {c : String} {s : BState} (comp : Component)
    (h : c ∉ keys s) : selectComponent c comp s = s ++ [(c, comp)] := by
  induction s with
  | nil => rfl
  | cons e rest ih =>
    have h1 : ¬ e.1 = c := by
      intro he
      exact h (mem_keys_cons.mpr (Or.inl he.symm))
    have h2 : c ∉ keys rest := fun hm => h (mem_keys_cons.mpr (Or.inr hm))
    simp only [selectComponent, if_neg h1, List.cons_append]
    rw [ih h2]

theorem applySelects_eq_append (ops : List (String × Component)) :
    ∀ s : BState, NodupKeys ops → (∀ k ∈ keys ops, k ∉ keys s) →
      applySelects s ops = s ++ ops := by
  induction ops with
  | nil => intro s _ _; simp [applySelects]
  | cons op rest ih =>
    intro s hn hdisj
    have hop : op.1 ∉ keys s := hdisj op.1 (mem_keys_cons.mpr (Or.inl rfl))
    have hrest : NodupKeys rest := (nodupKeys_cons.mp hn).2
    have hopr : op.1 ∉ keys rest := (nodupKeys_cons.mp hn).1
    have hstep : applySelects s (op :: rest)
        = applySelects (selectComponent op.1 op.2 s) rest := rfl
    rw [hstep, select_of_not_mem op.2 hop, ih (s ++ [(op.1, op.2)]) hrest ?_]
    · simp
    · intro k hk
      have h1 : k ∉ keys s := hdisj k (mem_keys_cons.mpr (Or.inr hk))
      have h2 : ¬ k = op.1 := fun he => hopr (he ▸ hk)
      intro hmem
      rw [keys, List.map_append] at hmem
      rcases List.mem_append.mp hmem with hm | hm
      · exact h1 hm
      · exact h2 (by simpa using hm)

theorem removeComponent_eq_self {c : String} {s : BState} (h : c ∉ keys s) :
    removeComponent c s = s := by
  rw [removeComponent, List.filter_eq_self]
  intro e he
  simp only [decide_eq_true_eq]
  intro h'
  exact h (h' ▸ List.mem_map_of_mem Prod.fst he)

theorem findComp_select_ne {c' c : String} (h : c' ≠ c) (comp : Component)
    (s : BState) : findComp c' (selectComponent c comp s) = findComp c' s := by
  have hcc : ¬ c = c' := fun h' => h h'.symm
  induction s with
  | nil => simp [selectComponent, findComp, hcc]
  | cons e rest ih =>
    by_cases he : e.1 = c
    · have he' : ¬ e.1 = c' := by rw [he]; exact hcc
      simp only [selectComponent, if_pos he, findComp, if_neg hcc, if_neg he']
    · simp only [selectComponent, if_neg he, findComp, ih]

theorem sum_map_split {M : Type} [AddCommMonoid M] (g : String × Component → M)
    (p : String × Component → Bool) (s : BState) :
    (s.map g).sum = ((s.filter p).map g).sum + ((s.filter (fun e => !(p e))).map g).sum := by
  induction s with
  | nil => simp
  | cons e rest ih =>
    by_cases hp : p e
    · simp only [List.map_cons, List.sum_cons, List.filter_cons, hp,
        Bool.not_true, if_true, if_false, ih]
      simp [add_assoc]
    · simp only [List.map_cons, List.sum_cons, List.filter_cons, hp,
        Bool.not_false, if_true, if_false, ih]
      simp [add_left_comm]

theorem cpuGpuScore_eq (s : BState) :
    cpuGpuScore s = scoreOr0 (findComp "CPU" s) + scoreOr0 (findComp "GPU" s) := by
  simp [cpuGpuScore, ORDER]

theorem parseFloatQ_nonneg {l : List Char} {q : ℚ} (h : parseFloatQ l = some q) :
    0 ≤ q := by
  simp only [parseFloatQ] at h
  repeat' split at h
  all_goals
    first
      | exact Option.noConfusion h
      | (rw [← Option.some.inj h]; positivity)

theorem regexMatch_eq_none {l : List Char}
    (h : ∀ c ∈ l, isDigitOrComma c = false) : regexMatch l = none := by
  induction l with
  | nil => rfl
  | cons c rest ih =>
    have hc : isDigitOrComma c = false := h c (List.mem_cons_self _ _)
    simp only [regexMatch, hc, Bool.false_eq_true, if_false]
    exact ih (fun c' hc' => h c' (List.mem_cons_of_mem _ hc'))

/-! ## Example components (values from the catalogs / the spec's scenario) -/

/-- The catalog CPU `r7-7800x3d` (price 369, watts 120, score 95). -/
def exampleCPU : Component :=
  ⟨"r7-7800x3d", "AMD Ryzen 7 7800X3D", 369, some 120, some 95⟩

/-- The catalog GPU `rtx-4070` (price 549, watts 200, score 86). -/
def exampleGPU : Component :=
  ⟨"rtx-4070", "NVIDIA RTX 4070 12GB", 549, some 200, some 86⟩

/-- The power supply of the spec's example scenario (price 109, watts 650). -/
def examplePSU : Component :=
  ⟨"psu-650", "650W 80+ Gold", 109, some 650, some 0⟩

/-- Build state of the spec's example scenario: CPU, GPU and PSU selected. -/
def exampleState : BState :=
  [("CPU", exampleCPU), ("GPU", exampleGPU), ("Power Supply", examplePSU)]

theorem updateSummary_exampleState :
    updateSummary exampleState
      = ⟨1027, 970, PerfDisplay.outOf200 181, HeadroomDisplay.percent (-49)⟩ := by
  simp [updateSummary, total, totalWatts, perfDisplay, psuHeadroom, cpuGpuScore,
    ORDER, exampleState, exampleCPU, exampleGPU, examplePSU, findComp,
    priceOr0, wattsOr0, scoreOr0, Summary.mk.injEq]
  rw [round_eq]
  rw [Int.floor_eq_iff]
  constructor
  · norm_num
  · norm_num

/-! ## Claim theorems -/

/-- Claim C1, counterexample.  In the spec's example scenario (CPU price
369 / watts 120 / score 95, GPU price 549 / watts 200 / score 86, PSU
price 109 / watts 650), `updateSummary` does NOT produce
`totalWatts = 320` and does NOT produce a 51% PSU headroom: the code adds
the PSU's own rated wattage into the load (`totalWatts += item.watts || 0`
runs for the "Power Supply" category too), giving 970 W and a headroom of
−49%. -/
theorem c1_example_scenario_cex :
    (updateSummary exampleState).totalWattsOut ≠ 320 ∧
    (updateSummary exampleState).headroom ≠ HeadroomDisplay.percent 51 := by
  rw [updateSummary_exampleState]
  constructor
  · decide
  · decide

/-- Claim C1, amended.  Selecting exactly the CPU (price 369, watts 120,
score 95), the GPU (price 549, watts 200, score 86) and the Power Supply
(price 109, watts 650) yields `totalPrice = 1027`, `totalWatts = 970`
(the PSU's own watts ARE added to the load), `performanceScore = 181` out
of 200, and PSU headroom `round(((650 − 970) / 650) × 100) = −49%`; under
the spec-modelled compatibility evaluator the negative headroom makes the
status `incompatible` (for every safety margin), not `compatible`. -/
theorem c1_example_scenario :
    updateSummary exampleState
      = ⟨1027, 970, PerfDisplay.outOf200 181, HeadroomDisplay.percent (-49)⟩ ∧
    round ((((650 : ℚ) - 970) / 650) * 100) = -49 ∧
    (∀ margin : ℤ, specEvaluatorStatus margin exampleState = "incompatible") := by
  refine ⟨updateSummary_exampleState, ?_, ?_⟩
  · rw [round_eq, Int.floor_eq_iff]
    constructor
    · norm_num
    · norm_num
  · intro margin
    have hhead : psuHeadroom exampleState = HeadroomDisplay.percent (-49) :=
      congrArg Summary.headroom updateSummary_exampleState
    rw [specEvaluatorStatus, if_neg (by decide : ¬ exampleState = []), hhead]
    simp

/-- Claim C7.  A compatibility check requested with zero components
selected short-circuits before any service call: for every possible
outcome of the analysis service, the delivered report is the literal
no-components report, with status `no_components`, zero components
analyzed, an empty issues list and a summary prompting the user to select
parts. -/
theorem c7_no_components (svc : Except String CompatReport) :
    checkBuildCompatibility [] svc = noComponentsReport ∧
    noComponentsReport.build_status = "no_components" ∧
    noComponentsReport.components_analyzed = 0 ∧
    noComponentsReport.compatibility_issues = [] ∧
    noComponentsReport.summary
      = "❓ Please select some components first to check compatibility." :=
  ⟨rfl, rfl, rfl, rfl, rfl⟩

/-- Claim C8.  When the compatibility evaluation fails (the fetch throws
or the response is non-2xx, both modelled as `Except.error`), the
delivered report is the literal error report: status `error` with a
user-safe summary, never `compatible`.  The embedded
`checkBuildCompatibility` is a total function, so no fault escapes the
engine boundary. -/
theorem c8_evaluation_error (s : BState) (e : String) (h : s ≠ []) :
    checkBuildCompatibility s (Except.error e) = errorReport ∧
    errorReport.build_status = "error" ∧
    errorReport.summary = "❌ Unable to check compatibility. Please try again later." ∧
    errorReport.build_status ≠ "compatible" := by
  refine ⟨?_, rfl, rfl, by decide⟩
  rw [checkBuildCompatibility, if_neg h]

/-- Witness for C8 at a one-component state and a concrete HTTP error. -/
theorem c8_evaluation_error_witness :
    checkBuildCompatibility [("CPU", exampleCPU)]
        (Except.error "HTTP error! status: 500") = errorReport ∧
    errorReport.build_status = "error" ∧
    errorReport.summary = "❌ Unable to check compatibility. Please try again later." ∧
    errorReport.build_status ≠ "compatible" :=
  c8_evaluation_error [("CPU", exampleCPU)] "HTTP error! status: 500"
    (List.cons_ne_nil _ _)

/-- Claim C9.  The watt pseudo-estimate assigned to a web-sourced
component, `Math.floor(Math.random() * 200) + 50`, lies in [50, 250) for
every possible random draw `r ∈ [0, 1)`. -/
theorem c9_estimated_watts_range (r : ℚ) (h0 : 0 ≤ r) (h1 : r < 1) :
    50 ≤ estimatedWatts r ∧ estimatedWatts r ≤ 249 := by
  have hf0 : (0 : ℤ) ≤ ⌊r * 200⌋ := by
    apply Int.floor_nonneg.mpr
    positivity
  have hflt : ⌊r * 200⌋ < 200 := by
    apply Int.floor_lt.mpr
    push_cast
    nlinarith
  unfold estimatedWatts
  omega

/-- Witness for C9 at the draw r = 1/2 (estimate 150). -/
theorem c9_estimated_watts_range_witness :
    50 ≤ estimatedWatts (1 / 2) ∧ estimatedWatts (1 / 2) ≤ 249 :=
  c9_estimated_watts_range (1 / 2) (by norm_num) (by norm_num)

/-- Claim C2.  Building a state by any sequence of selections of pairwise
distinct categories drawn from `ORDER`, the computed total wattage equals
the sum of the `watts` field over all selected components (the Power
Supply's entry included), a missing `watts` field counting as 0; and the
total is unchanged when the same selections are applied in any other
order. -/
theorem c2_totalWatts_sum (ops ops' : List (String × Component))
    (hnd : NodupKeys ops) (hsub : ∀ k ∈ keys ops, k ∈ ORDER_WEB)
    (hperm : ops.Perm ops') :
    calculateTotalWatts (applySelects [] ops)
        = (ops.map (fun e => e.2.watts.getD 0)).sum ∧
    calculateTotalWatts (applySelects [] ops)
        = calculateTotalWatts (applySelects [] ops') := by
  have hnd' : NodupKeys ops' := ((hperm.map Prod.fst).nodup_iff).mp hnd
  have happ : applySelects [] ops = ops :=
    applySelects_eq_append ops [] hnd (by intro k _ hk; simp at hk)
  have happ' : applySelects [] ops' = ops' :=
    applySelects_eq_append ops' [] hnd' (by intro k _ hk; simp at hk)
  constructor
  · rw [happ]
    have hfil : ops.filter (fun e => decide (e.1 ∈ ORDER_WEB)) = ops := by
      rw [List.filter_eq_self]
      intro e he
      exact decide_eq_true (hsub e.1 (List.mem_map_of_mem Prod.fst he))
    rw [calculateTotalWatts,
      sum_lookup_eq_filter wattsOr0 rfl ORDER_WEB ops (by decide) hnd, hfil]
    simp [wattsOr0]
  · rw [happ, happ']
    have hlook : ∀ c, findComp c ops = findComp c ops' :=
      findComp_perm hperm hnd
    simp [calculateTotalWatts, hlook]

/-- Witness for C2: CPU and PSU selected in both orders. -/
theorem c2_totalWatts_sum_witness :
    calculateTotalWatts (applySelects []
        [("CPU", exampleCPU), ("Power Supply", examplePSU)])
      = ([("CPU", exampleCPU), ("Power Supply", examplePSU)].map
          (fun e => e.2.watts.getD 0)).sum ∧
    calculateTotalWatts (applySelects []
        [("CPU", exampleCPU), ("Power Supply", examplePSU)])
      = calculateTotalWatts (applySelects []
          [("Power Supply", examplePSU), ("CPU", exampleCPU)]) :=
  c2_totalWatts_sum
    [("CPU", exampleCPU), ("Power Supply", examplePSU)]
    [("Power Supply", examplePSU), ("CPU", exampleCPU)]
    (by decide) (by decide)
    (List.Perm.swap ("Power Supply", examplePSU) ("CPU", exampleCPU) [])

/-- A 100 W power supply used to exhibit a negative headroom. -/
def smallPSU : Component := ⟨"psu-small", "100W PSU", 20, some 100, some 0⟩

/-- State whose load (GPU 200 W + PSU's own 100 W) exceeds the PSU's
rated 100 W. -/
def negHeadroomState : BState :=
  [("GPU", exampleGPU), ("Power Supply", smallPSU)]

theorem psuHeadroom_negHeadroomState :
    psuHeadroom negHeadroomState = HeadroomDisplay.percent (-200) := by
  simp [psuHeadroom, totalWatts, ORDER, findComp, wattsOr0, negHeadroomState,
    exampleGPU, smallPSU]

/-- Claim C3.  Over build states in which a selected power supply carries
a positive rated wattage (as every catalog or web-normalized PSU does),
the headroom display is the not-applicable dash exactly when no Power
Supply is selected or the total wattage is 0; otherwise it is
`round(((psuWatts − totalWatts) / psuWatts) × 100)` percent; and a
negative headroom is a value the display can actually take (not an
error). -/
theorem c3_psu_headroom (s : BState)
    (hpsu : ∀ psu, findComp "Power Supply" s = some psu →
      ∃ w : ℕ, psu.watts = some w ∧ 0 < w) :
    (psuHeadroom s = HeadroomDisplay.dash ↔
      (findComp "Power Supply" s = none ∨ totalWatts s = 0)) ∧
    (∀ psu (w : ℕ), findComp "Power Supply" s = some psu →
      psu.watts = some w → 0 < totalWatts s →
      psuHeadroom s = HeadroomDisplay.percent
        (round ((((w : ℚ) - (totalWatts s : ℚ)) / (w : ℚ)) * 100))) ∧
    (∃ s' : BState, ∃ z : ℤ,
      psuHeadroom s' = HeadroomDisplay.percent z ∧ z < 0) := by
  refine ⟨?_, ?_, ⟨negHeadroomState, -200, psuHeadroom_negHeadroomState, by decide⟩⟩
  · cases hf : findComp "Power Supply" s with
    | none =>
      simp [psuHeadroom, hf]
    | some psu =>
      obtain ⟨w, hw, hwpos⟩ := hpsu psu hf
      by_cases ht : 0 < totalWatts s
      · have : psuHeadroom s = HeadroomDisplay.percent
            (round ((((w : ℚ) - (totalWatts s : ℚ)) / (w : ℚ)) * 100)) := by
          rw [psuHeadroom, hf]
          simp only [if_pos ht, hw]
          rw [if_neg (Nat.pos_iff_ne_zero.mp hwpos)]
        rw [this]
        simp [hf, Nat.pos_iff_ne_zero.mp ht]
      · have ht0 : totalWatts s = 0 := Nat.eq_zero_of_not_pos ht
        rw [psuHeadroom, hf]
        simp [ht0]
  · intro psu w hf hw ht
    have hne : ¬ w = 0 := by
      obtain ⟨w', hw', hwpos⟩ := hpsu psu hf
      rw [hw] at hw'
      cases Option.some.inj hw'
      exact Nat.pos_iff_ne_zero.mp hwpos
    rw [psuHeadroom, hf]
    simp only [if_pos ht, hw]
    rw [if_neg hne]

/-- Witness for C3 at a state with only the 100 W PSU selected
(`totalWatts` = the PSU's own 100 W, headroom 0%). -/
theorem c3_psu_headroom_witness :
    psuHeadroom [("Power Supply", smallPSU)] = HeadroomDisplay.percent
      (round ((((100 : ℕ) : ℚ)
          - (totalWatts [("Power Supply", smallPSU)] : ℚ))
        / ((100 : ℕ) : ℚ) * 100)) :=
  (c3_psu_headroom [("Power Supply", smallPSU)]
      (by
        intro psu h
        have h0 : findComp "Power Supply" [("Power Supply", smallPSU)]
            = some smallPSU := rfl
        have hps : psu = smallPSU := (Option.some.inj (h0.symm.trans h)).symm
        rw [hps]
        exact ⟨100, rfl, by decide⟩)).2.1
    smallPSU 100
    (by rfl) (by rfl) (by decide)

/-- Claim C4, counterexample.  On the price string ", 42" the regex
`[\d,]+\.?\d*` matches the bare comma before the digits ever start; after
comma-stripping, `parseFloat("")` is `NaN` (modelled `none`): the result
is neither the first digit run's value 42 nor any non-negative number. -/
theorem c4_price_parsing_cex :
    extractNumericPrice ", 42" = none ∧
    extractNumericPrice ", 42" ≠ some 42 := by
  have h : extractNumericPrice ", 42" = none := by
    simp +decide [extractNumericPrice, regexMatch, parseFloatQ, digitsToNat,
      isDigitOrComma]
  exact ⟨h, by rw [h]; exact fun hc => Option.noConfusion hc⟩

/-- Claim C4, amended.  Normalization takes the first maximal run of
digit-or-comma characters (optionally followed by a decimal point and
digits), strips commas and parses the remainder, tolerating currency
symbols and trailing text: "$1,234.56 (used)" yields 1234.56 and
"Contact for price" yields 0 (any string without digit-or-comma
characters yields 0).  Whenever the parse delivers a number it is
non-negative — but a run consisting only of commas delivers NaN instead
of a number. -/
theorem c4_price_parsing :
    extractNumericPrice "$1,234.56 (used)" = some (123456 / 100 : ℚ) ∧
    extractNumericPrice "Contact for price" = some 0 ∧
    (∀ s : String, ∀ q : ℚ, extractNumericPrice s = some q → 0 ≤ q) ∧
    (∀ s : String, (∀ c ∈ s.data, isDigitOrComma c = false) →
      extractNumericPrice s = some 0) := by
  refine ⟨?_, ?_, ?_, ?_⟩
  · simp +decide [extractNumericPrice, regexMatch, parseFloatQ, digitsToNat,
      isDigitOrComma]
    norm_num
  · simp +decide [extractNumericPrice, regexMatch, parseFloatQ, digitsToNat,
      isDigitOrComma]
  · intro s q h
    rw [extractNumericPrice] at h
    split at h
    · rw [← Option.some.inj h]
    · split at h
      · rw [← Option.some.inj h]
      · exact parseFloatQ_nonneg h
  · intro s hall
    rw [extractNumericPrice]
    split
    · rfl
    · rw [regexMatch_eq_none hall]

/-- Witness for C4: the general non-negativity and no-digit clauses at
concrete strings. -/
theorem c4_price_parsing_witness :
    (0 : ℚ) ≤ 7 ∧ extractNumericPrice "no digits here!" = some 0 :=
  ⟨c4_price_parsing.2.2.1 "7" 7
      (by simp +decide [extractNumericPrice, regexMatch, parseFloatQ,
        digitsToNat, isDigitOrComma]),
    c4_price_parsing.2.2.2 "no digits here!" (by decide)⟩

/-- A web-sourced component as built by `selectWebComponent`: the search
result carries no `score` field, so the stored component has none. -/
def webGPU : Component :=
  ⟨"web-1728000000000", "GeForce RTX Graphics Card", 500, some 150, none⟩

/-- Claim C5, counterexample.  A build whose GPU slot holds a web-sourced
component (no `score` field) renders the same "—" sentinel as a build
with no CPU or GPU at all: the sentinel test is `cpuGpuScore > 0`, so the
no-data state is NOT distinguishable from every state with a CPU or GPU
selected. -/
theorem c5_perf_sentinel_cex :
    perfDisplay [("GPU", webGPU)] = PerfDisplay.dash ∧
    findComp "GPU" [("GPU", webGPU)] ≠ none ∧
    perfDisplay [] = PerfDisplay.dash := by
  refine ⟨by decide, ?_, by decide⟩
  intro h
  exact Option.noConfusion h

/-- Claim C5, amended.  The performance score is the sum of `score` over
the CPU and GPU selections only (missing `score` counting 0, all other
categories contributing nothing — selecting any other category leaves it
unchanged), displayed out of the fixed ceiling 200 when positive; the
"—" sentinel appears exactly when that sum is 0, which covers the
no-CPU-and-no-GPU state but also any state whose selected CPU/GPU have
zero or missing scores. -/
theorem c5_perf_score (s : BState) :
    cpuGpuScore s = scoreOr0 (findComp "CPU" s) + scoreOr0 (findComp "GPU" s) ∧
    (perfDisplay s = PerfDisplay.dash ↔ cpuGpuScore s = 0) ∧
    (0 < cpuGpuScore s →
      perfDisplay s = PerfDisplay.outOf200 (cpuGpuScore s)) ∧
    (findComp "CPU" s = none → findComp "GPU" s = none →
      perfDisplay s = PerfDisplay.dash) ∧
    (∀ c comp, c ≠ "CPU" → c ≠ "GPU" →
      cpuGpuScore (selectComponent c comp s) = cpuGpuScore s) := by
  refine ⟨cpuGpuScore_eq s, ?_, ?_, ?_, ?_⟩
  · rw [perfDisplay]
    by_cases h : 0 < cpuGpuScore s
    · rw [if_pos h]
      constructor
      · intro hd
        exact PerfDisplay.noConfusion hd
      · intro h0
        omega
    · rw [if_neg h]
      simp
      omega
  · intro h
    rw [perfDisplay, if_pos h]
  · intro hcpu hgpu
    have h0 : cpuGpuScore s = 0 := by
      rw [cpuGpuScore_eq, hcpu, hgpu]
      rfl
    rw [perfDisplay, h0]
    simp
  · intro c comp hc1 hc2
    rw [cpuGpuScore_eq, cpuGpuScore_eq,
      findComp_select_ne (fun h => hc1 h.symm) comp s,
      findComp_select_ne (fun h => hc2 h.symm) comp s]

/-- Witness for C5 at concrete states: a lone CPU shows its score out of
200, the empty build shows the sentinel, selecting RAM leaves the score
unchanged. -/
theorem c5_perf_score_witness :
    perfDisplay [("CPU", exampleCPU)]
      = PerfDisplay.outOf200 (cpuGpuScore [("CPU", exampleCPU)]) ∧
    perfDisplay ([] : BState) = PerfDisplay.dash ∧
    cpuGpuScore (selectComponent "RAM" webGPU [("CPU", exampleCPU)])
      = cpuGpuScore [("CPU", exampleCPU)] :=
  ⟨(c5_perf_score [("CPU", exampleCPU)]).2.2.1 (by decide),
    (c5_perf_score ([] : BState)).2.2.2.1 rfl rfl,
    (c5_perf_score [("CPU", exampleCPU)]).2.2.2.2 "RAM" webGPU
      (by decide) (by decide)⟩

/-- The catalog CPU `r5-5600` (price 129). -/
def budgetCPU : Component := ⟨"r5-5600", "AMD Ryzen 5 5600", 129, some 65, some 70⟩

theorem calculateTotalPrice_nil : calculateTotalPrice [] = 0 := by
  simp [calculateTotalPrice, ORDER_WEB, findComp, priceOr0]

/-- Claim C6, counterexample.  When the category already holds a
selection, `select` then `remove` does NOT restore the totals:
`state[category] = component` overwrites the old selection and
`delete state[category]` then leaves the category empty, losing the
original component.  Starting from a build with the $129 CPU, selecting
another CPU and removing it leaves a $0 total, not $129. -/
theorem c6_select_remove_cex :
    calculateTotalPrice (removeComponent "CPU"
        (selectComponent "CPU" exampleCPU [("CPU", budgetCPU)]))
      ≠ calculateTotalPrice [("CPU", budgetCPU)] := by
  have h1 : removeComponent "CPU"
      (selectComponent "CPU" exampleCPU [("CPU", budgetCPU)]) = [] := by
    decide
  have h2 : calculateTotalPrice [("CPU", budgetCPU)] = 129 := by
    simp [calculateTotalPrice, ORDER_WEB, findComp, priceOr0, budgetCPU]
  rw [h1, h2, calculateTotalPrice_nil]
  norm_num

/-- Claim C6, amended.  The select-then-remove round trip restores
`totalPrice` and `totalWatts` (indeed the entire build state) whenever
the category had no prior selection; with a prior selection the code
deletes it, so the law holds only on categories that were unselected. -/
theorem c6_select_remove_roundtrip (s : BState) (c : String)
    (comp : Component) (h : findComp c s = none) :
    removeComponent c (selectComponent c comp s) = s ∧
    calculateTotalPrice (removeComponent c (selectComponent c comp s))
      = calculateTotalPrice s ∧
    calculateTotalWatts (removeComponent c (selectComponent c comp s))
      = calculateTotalWatts s := by
  have hmem : c ∉ keys s := findComp_eq_none_iff.mp h
  have hstate : removeComponent c (selectComponent c comp s) = s := by
    rw [select_of_not_mem comp hmem, removeComponent, List.filter_append]
    have h1 : List.filter (fun e => decide (e.1 ≠ c)) s = s := by
      rw [List.filter_eq_self]
      intro e he
      simp only [decide_eq_true_eq]
      exact fun h' => hmem (h' ▸ List.mem_map_of_mem Prod.fst he)
    have h2 : List.filter (fun e => decide (e.1 ≠ c)) [(c, comp)] = [] := by
      simp
    rw [h1, h2, List.append_nil]
  exact ⟨hstate, by rw [hstate], by rw [hstate]⟩

/-- Witness for C6: selecting then removing a CPU on a build that had no
CPU restores the build. -/
theorem c6_select_remove_roundtrip_witness :
    removeComponent "CPU" (selectComponent "CPU" exampleCPU
        [("GPU", exampleGPU)]) = [("GPU", exampleGPU)] ∧
    calculateTotalPrice (removeComponent "CPU" (selectComponent "CPU"
        exampleCPU [("GPU", exampleGPU)]))
      = calculateTotalPrice [("GPU", exampleGPU)] ∧
    calculateTotalWatts (removeComponent "CPU" (selectComponent "CPU"
        exampleCPU [("GPU", exampleGPU)]))
      = calculateTotalWatts [("GPU", exampleGPU)] :=
  c6_select_remove_roundtrip [("GPU", exampleGPU)] "CPU" exampleCPU rfl

/-- Claim C10.  For every build state with JS-object keys, the grand
total written by `exportBuild` (sum over all stored entries) equals the
total computed by `calculateTotalPrice` (sum over the categories of
`ORDER`) plus the prices of entries stored under categories outside
`ORDER`; in particular the two agree whenever every selected category
belongs to `ORDER`, and an out-of-`ORDER` entry is counted by the export
but contributes 0 to the computed total. -/
theorem c10_export_total_refinement (s : BState) (hs : NodupKeys s) :
    exportBuildTotal s
      = calculateTotalPrice s
        + ((s.filter (fun e => !(decide (e.1 ∈ ORDER_WEB)))).map
            (fun e => e.2.price)).sum ∧
    ((∀ k ∈ keys s, k ∈ ORDER_WEB) →
      exportBuildTotal s = calculateTotalPrice s) := by
  have hcalc : calculateTotalPrice s
      = ((s.filter (fun e => decide (e.1 ∈ ORDER_WEB))).map
          (fun e => priceOr0 (some e.2))).sum :=
    sum_lookup_eq_filter priceOr0 rfl ORDER_WEB s (by decide) hs
  have hA : exportBuildTotal s
      = calculateTotalPrice s
        + ((s.filter (fun e => !(decide (e.1 ∈ ORDER_WEB)))).map
            (fun e => e.2.price)).sum := by
    rw [exportBuildTotal,
      sum_map_split (fun e => e.2.price) (fun e => decide (e.1 ∈ ORDER_WEB)) s,
      hcalc]
    simp [priceOr0]
  refine ⟨hA, ?_⟩
  intro hsub
  have hnil : s.filter (fun e => !(decide (e.1 ∈ ORDER_WEB))) = [] := by
    rw [List.filter_eq_nil_iff]
    intro e he
    simp only [Bool.not_eq_true', decide_eq_false_iff_not, Decidable.not_not]
    exact hsub e.1 (List.mem_map_of_mem Prod.fst he)
  rw [hA, hnil]
  simp

/-- Witness for C10: a build holding a CPU and an entry under the
category "Custom" (outside `ORDER`), and a build holding only the CPU. -/
theorem c10_export_total_refinement_witness :
    (exportBuildTotal [("CPU", exampleCPU), ("Custom", webGPU)]
      = calculateTotalPrice [("CPU", exampleCPU), ("Custom", webGPU)]
        + (([("CPU", exampleCPU), ("Custom", webGPU)].filter
            (fun e => !(decide (e.1 ∈ ORDER_WEB)))).map
              (fun e => e.2.price)).sum) ∧
    (exportBuildTotal [("CPU", exampleCPU)]
      = calculateTotalPrice [("CPU", exampleCPU)]) :=
  ⟨(c10_export_total_refinement [("CPU", exampleCPU), ("Custom", webGPU)]
      (by decide)).1,
    (c10_export_total_refinement [("CPU", exampleCPU)] (by decide)).2
      (by decide)⟩

end ByteBuilder
